import Mathlib

/-!
# Shallow embedding of the forex-system ledger engine (`src/forex/models.py`)

Conventions of the embedding:

* Python floats are modelled as exact rationals (`ℚ`).
* Django model rows live in an explicit `DB` record; every `save` method is a
  function from the pre-state to an `Except Err` post-state.  A Python
  exception (`ValidationError`, `TypeError`, `ZeroDivisionError`,
  `AttributeError` on a missing row, or a database error raised while
  executing an `UPDATE`) is `Except.error`.
* A Django multi-field `update(...)` with `F()` expressions compiles to a
  single SQL `UPDATE`; under the standard SQL semantics used by the default
  backend (SQLite, likewise PostgreSQL) every column reference on a
  right-hand side reads the row's value *before* that statement.  A Lean
  record update `{ b with f := ..., g := ... }` has exactly these semantics,
  so each `.update(...)` call is one record update.  Two consecutive
  `.update(...)` calls are two statements: the second one does see the
  columns written by the first.
* `Transaction.objects.filter(...).aggregate(Sum(...))` returns `none` when
  the filtered set is empty (Django returns `None`), hence `aggSum`.
* Python truthiness on an optional float (`if not self.amount_EGP`) is
  `falsy`: `None` and `0.0` are both falsy.
* `round(x, 2)` is Python 3 rounding: round half to even at two decimals.
-/

deriving instance DecidableEq for Except

namespace Forex

/-- Errors: every way a `clean`/`save` call of the engine can raise.
`missingAmount` and `insufficientFunds` are the two `ValidationError`s of
`Transaction.clean`; `noBundle` is the `AttributeError` raised in
`Balance.save` when no bundle range matches; `noneAmount` is the `TypeError`
of arithmetic on a `None` amount; `noTotalAsset` is the `AttributeError`
when `TotalAsset.objects.first()` is `None`; `noneTotal` is the `TypeError`
of arithmetic on a `None` aggregate; `divisionByZero` is a zero divisor,
either in Python or inside a SQL `UPDATE` (where the backend aborts the
statement: SQLite turns `x / 0` into `NULL` and the `NOT NULL` column then
raises `IntegrityError`; PostgreSQL raises a division error directly). -/
inductive Err where
  | missingAmount
  | insufficientFunds
  | noBundle
  | noneAmount
  | noTotalAsset
  | noneTotal
  | divisionByZero
deriving DecidableEq, Repr

/-- Python truthiness test of an optional float: `None` and `0.0` are falsy. -/
def falsy : Option ℚ → Bool
  | none => true
  | some x => decide (x = 0)

/-- Round half to even to an integer (Python 3 `round` on an exact value). -/
def roundHalfEven (x : ℚ) : ℤ :=
  let f : ℤ := x.floor
  let frac : ℚ := x - (f : ℚ)
  if frac < 1 / 2 then f
  else if 1 / 2 < frac then f + 1
  else if f % 2 = 0 then f else f + 1

/-- Python `round(x, 2)`. -/
def round2 (x : ℚ) : ℚ := (roundHalfEven (x * 100) : ℚ) / 100

/-- Django `aggregate(Sum(col))`: `None` on an empty queryset, else the sum. -/
def aggSum (l : List ℚ) : Option ℚ :=
  if l.isEmpty then none else some l.sum

/-- `round(deposits, 2) if deposits else 0` (lines 386 and 395 of
`models.py`): the aggregate is falsy when it is `None` or `0.0`. -/
def pyDeposits : Option ℚ → ℚ
  | none => 0
  | some s => if s = 0 then 0 else round2 s

/-- `Bundle` model: a fee tier selected by wallet range (demographic and
referral fields that no engine rule reads are kept for fidelity). -/
structure Bundle where
  name : String
  min_value : ℚ
  max_value : ℚ
  bundle_per : ℚ
  referral_per : ℚ
  referral_breakeven_lvl : ℚ
deriving DecidableEq, Repr

/-- `Bundle.objects.filter(min_value__lte=w, max_value__gte=w).first()`:
first bundle of the catalog (in database order) whose range contains `w`. -/
def Bundle.resolve (catalog : List Bundle) (w : ℚ) : Option Bundle :=
  catalog.find? fun b => decide (b.min_value ≤ w) && decide (w ≤ b.max_value)

/-- `Balance` model: the per-account ledger row.  The `account` foreign key
is not modelled: the only thing `Balance.save` does with it is store the
resolved bundle and re-save the account id, neither of which any engine rule
reads back (the resolved fee is kept in `profit_per`). -/
structure Balance where
  main_wallet : ℚ
  balance : ℚ
  trading_result_last_week : ℚ
  PL : ℚ
  total_achievement : ℚ
  share : ℚ
  profit_per : ℚ
deriving DecidableEq, Repr

/-- `Balance.save` (`models.py` lines 203-213): recompute
`balance = main_wallet + total_achievement`, re-tier the bundle from the
(pre-floor) `main_wallet` and recompute `profit_per`, then apply the floor
rule: a non-positive balance resets `balance`, `main_wallet` and `PL` to 0.
A missing bundle is the `AttributeError` of line 207 on `None.bundle_per`. -/
def Balance.save (catalog : List Bundle) (b : Balance) : Except Err Balance :=
  let b := { b with balance := b.main_wallet + b.total_achievement }
  match Bundle.resolve catalog b.main_wallet with
  | none => .error .noBundle
  | some bu =>
    let b := { b with profit_per := (100 - bu.bundle_per) / 100 }
    if b.balance ≤ 0 then
      .ok { b with balance := 0, main_wallet := 0, PL := 0 }
    else
      .ok b

/-- Transaction type choices. -/
inductive TType where
  | Deposit
  | Withdrawal
deriving DecidableEq, Repr

/-- `Transaction` model (the fields the engine reads; the channel and date
fields are carried by `TxRow` below where the engine aggregates over them).
`deliverd_rate` keeps the source's spelling. -/
structure Transaction where
  transaction_type : TType
  amount_EGP : Option ℚ
  amount_USD : Option ℚ
  deliverd_rate : ℚ
  real_rate : ℚ
  paid : Bool
  paid_flag : Bool
deriving DecidableEq, Repr

/-- A persisted transaction row as the settlement engine queries it:
`created_at` is an abstract timestamp (only its ordering is used by the
`created_at__gt` filter). -/
structure TxRow where
  created_at : Nat
  transaction_type : TType
  amount_USD : ℚ
  paid : Bool
deriving DecidableEq, Repr

/-- A persisted `TotalAsset` row.  Note what is *not* here: the class
attribute `old_withdrawals` of the Python model is not a database column,
so it is not part of a row. -/
structure TotalAssetRow where
  created_at : Nat
  total : ℚ
  PLs : ℚ
  deposits : ℚ
  withdrawals : ℚ
deriving DecidableEq, Repr

/-- An in-memory `TotalAsset` Python instance: the row fields plus `id`
(`none` before the first insert) and the `old_withdrawals` attribute.
`old_withdrawals = 0` is declared at class level (line 364 of `models.py`):
reading it on a fresh instance yields the class value `0`, and the
assignment `self.old_withdrawals = ...` in `save` creates an instance
attribute that is never persisted, so every instance freshly constructed or
freshly loaded from the database starts with `old_withdrawals = 0`. -/
structure TotalAsset where
  id : Option Nat
  created_at : Nat
  total : ℚ
  PLs : ℚ
  deposits : ℚ
  withdrawals : ℚ
  old_withdrawals : ℚ
deriving DecidableEq, Repr

/-- Loading a `TotalAsset` row into a fresh instance
(`TotalAsset.objects.first()`): `old_withdrawals` is the class default 0. -/
def TotalAsset.load (i : Nat) (r : TotalAssetRow) : TotalAsset :=
  { id := some i, created_at := r.created_at, total := r.total, PLs := r.PLs,
    deposits := r.deposits, withdrawals := r.withdrawals, old_withdrawals := 0 }

/-- The database columns of an instance (what `super().save()` persists). -/
def TotalAsset.toRow (ta : TotalAsset) : TotalAssetRow :=
  { created_at := ta.created_at, total := ta.total, PLs := ta.PLs,
    deposits := ta.deposits, withdrawals := ta.withdrawals }

/-- A `CompanyFinance` ledger entry together with the `name`/`type` of its
`FinanceType` (`get_or_create` keys the type rows by these two fields; the
observable effect of one `create` call is this triple). -/
structure CompanyFinance where
  name : String
  type : String
  amount : ℚ
deriving DecidableEq, Repr

/-- The database.  `total_assets` is newest-first (the model's Meta ordering
is `-created_at`, so `objects.first()` is the head).  `balances` are the
ledger rows touched by the bulk `Balance.objects.update(...)` calls of the
settlement engine. -/
structure DB where
  balances : List Balance
  total_assets : List TotalAssetRow
  transactions : List TxRow
  company_finance : List CompanyFinance
deriving DecidableEq, Repr

/-- First bulk update of a subsequent settlement (lines 373-374):
`trading_result_last_week = share * profit_per * PLs`. -/
def settleTrw (PLs : ℚ) (b : Balance) : Balance :=
  { b with trading_result_last_week := b.share * b.profit_per * PLs }

/-- Second bulk update of a subsequent settlement (lines 377-380), one SQL
`UPDATE`: every `F()` on a right-hand side reads the pre-statement value of
the row, so `balance = F('PL') + F('main_wallet')` uses the `PL` *before*
this statement adds `trading_result_last_week` to it (while
`F('trading_result_last_week')` does see the value written by the previous
statement, `settleTrw`). -/
def settleApply (b : Balance) : Balance :=
  { b with
    total_achievement := b.total_achievement + b.trading_result_last_week,
    PL := b.PL + b.trading_result_last_week,
    balance := b.PL + b.main_wallet }

/-- Subsequent-settlement branch of `TotalAsset.save` (lines 369-387): a
prior row exists and the instance is unsaved.  Computes `PLs`, runs the two
bulk updates, aggregates the paid deposits created strictly after the
previous row, and adds them to `total`. -/
def subsequentSettlement (db : DB) (lastRow : TotalAssetRow) (ta : TotalAsset) :
    List Balance × TotalAsset :=
  let ta := { ta with PLs := ta.total - lastRow.total }
  let balances := db.balances.map (settleTrw ta.PLs)
  let balances := balances.map settleApply
  let deps := aggSum (((db.transactions.filter fun tx =>
      decide (lastRow.created_at < tx.created_at) &&
      decide (tx.transaction_type = TType.Deposit) && tx.paid)).map (·.amount_USD))
  let ta := { ta with deposits := pyDeposits deps }
  (balances, { ta with total := ta.total + ta.deposits })

/-- First-settlement branch of `TotalAsset.save` (lines 389-399): no prior
row exists.  `total` is zeroed and then overwritten with the sum of all
wallets, the paid deposits to date are aggregated, shares are initialized to
`balance / total` under an explicit `total != 0` guard, and finally
`total += deposits`.  An empty `balances` table makes the wallet aggregate
`None`, which Python later crashes on (`noneTotal`). -/
def firstSettlement (db : DB) (ta : TotalAsset) :
    Except Err (List Balance × TotalAsset) :=
  let ta := { ta with total := 0 }
  match aggSum (db.balances.map (·.main_wallet)) with
  | none => .error .noneTotal
  | some wsum =>
    let ta := { ta with total := wsum }
    let deps := aggSum (((db.transactions.filter fun tx =>
        decide (tx.transaction_type = TType.Deposit) && tx.paid)).map (·.amount_USD))
    let ta := { ta with deposits := pyDeposits deps }
    let balances :=
      if ta.total ≠ (0 : ℚ) then
        db.balances.map fun b => { b with share := b.balance / ta.total }
      else db.balances
    .ok (balances, { ta with total := ta.total + ta.deposits })

/-- `TotalAsset.save` (lines 366-406).  Branch selection mirrors lines
369/389 (`not self.id and [not] TotalAsset.objects.first()`), then the
withdrawal reconciliation of lines 400-402 on the instance's
`old_withdrawals`, then the unconditional final share recomputation
`Balance.objects.update(share=F('balance') / self.total)` of line 405 —
which has no zero guard: with `self.total == 0` the SQL `UPDATE` divides by
zero and the backend aborts the save (`divisionByZero`).  `super().save()`
inserts a new row (newest-first) when `id` is `none`, else writes the
instance's columns back to the latest row (the only row the engine ever
updates in place). -/
def TotalAsset.save (db : DB) (ta : TotalAsset) : Except Err (DB × TotalAsset) :=
  let branch : Except Err (List Balance × TotalAsset) :=
    if ta.id = none then
      match db.total_assets.head? with
      | some lastRow => .ok (subsequentSettlement db lastRow ta)
      | none => firstSettlement db ta
    else .ok (db.balances, ta)
  match branch with
  | .error e => .error e
  | .ok (balances, ta) =>
    let ta :=
      if ta.old_withdrawals ≠ ta.withdrawals then
        { ta with total := ta.total - (ta.withdrawals - ta.old_withdrawals),
                  old_withdrawals := ta.withdrawals }
      else ta
    if ta.total = 0 then .error .divisionByZero
    else
      let balances := balances.map fun b => { b with share := b.balance / ta.total }
      let db := { db with balances := balances }
      if ta.id = none then
        .ok ({ db with total_assets := ta.toRow :: db.total_assets },
             { ta with id := some (db.total_assets.length + 1) })
      else
        .ok ({ db with total_assets := ta.toRow :: db.total_assets.tail }, ta)

/-- `Transaction.clean` (lines 276-287): reject when both amounts are falsy,
derive the missing amount from the delivered rate, reject a withdrawal
larger than the current balance (`bb` is `self.balance.balance`).  The
Python `ZeroDivisionError` of `amount_EGP / deliverd_rate` is hoisted into
an explicit check; it fires in exactly the state the source divides in
(`amount_USD` falsy), since the EGP-derivation step never changes
`amount_USD`. -/
def Transaction.clean (bb : ℚ) (t : Transaction) : Except Err Transaction :=
  if falsy t.amount_EGP && falsy t.amount_USD then .error .missingAmount
  else if falsy t.amount_USD && decide (t.deliverd_rate = 0) then .error .divisionByZero
  else
    let t :=
      if falsy t.amount_EGP then
        { t with amount_EGP := some (round2 (t.amount_USD.getD 0 * t.deliverd_rate)) }
      else t
    let t :=
      if falsy t.amount_USD then
        { t with amount_USD := some (round2 (t.amount_EGP.getD 0 / t.deliverd_rate)) }
      else t
    if t.transaction_type = TType.Withdrawal ∧ t.amount_USD.getD 0 > bb then
      .error .insufficientFunds
    else .ok t

/-- Withdrawal wallet arithmetic (lines 302-307), sequentially on the
instance: when the amount exceeds the wallet and there is accumulated
profit, the shortfall is drawn from `PL`, the wallet is set to the
post-decrement `PL`, and `PL` is zeroed; otherwise the wallet is simply
decremented. -/
def withdrawalWallet (usd : ℚ) (b : Balance) : Balance :=
  if usd > b.main_wallet ∧ b.PL > 0 then
    let b := { b with PL := b.PL - (usd - b.main_wallet) }
    let b := { b with main_wallet := b.PL }
    { b with PL := 0 }
  else
    { b with main_wallet := b.main_wallet - usd }

/-- Deposit branch of `Transaction.save` (lines 290-299): guarded by
`type == DEPOSIT and paid and not paid_flag`.  Credits the wallet, records
the deposit spread `amount_USD - amount_EGP / real_rate` as company revenue
(`> 0`) or expense (`< 0`) — nothing on an exact tie — then saves the
balance.  A `None` amount is the `TypeError` Python would raise using it. -/
def depositStep (catalog : List Bundle) (db : DB) (bal : Balance)
    (t : Transaction) : Except Err (DB × Balance) :=
  if t.transaction_type = TType.Deposit ∧ t.paid = true ∧ t.paid_flag = false then
    match t.amount_USD, t.amount_EGP with
    | some usd, some egp =>
      let bal := { bal with main_wallet := bal.main_wallet + usd }
      if t.real_rate = 0 then .error .divisionByZero
      else
        let deposit_spread := usd - egp / t.real_rate
        let db :=
          if deposit_spread > 0 then
            { db with company_finance :=
                db.company_finance ++ [⟨"Deposit Spread", "Revenues", |deposit_spread|⟩] }
          else if deposit_spread < 0 then
            { db with company_finance :=
                db.company_finance ++ [⟨"Deposit Spread", "Expenses", |deposit_spread|⟩] }
          else db
        match Balance.save catalog bal with
        | .error e => .error e
        | .ok bal => .ok (db, bal)
    | _, _ => .error .noneAmount
  else .ok (db, bal)

/-- Withdrawal branch of `Transaction.save` (lines 301-320): guarded by
`type == WITHDRAWAL and paid and not paid_flag`.  Runs the wallet
arithmetic, saves the balance, loads the latest `TotalAsset` row into a
fresh instance (whose `old_withdrawals` is therefore the class default 0),
adds the amount to its `withdrawals` and saves it, then records the
withdrawal spread `amount_EGP / real_rate - amount_USD`. -/
def withdrawalStep (catalog : List Bundle) (db : DB) (bal : Balance)
    (t : Transaction) : Except Err (DB × Balance) :=
  if t.transaction_type = TType.Withdrawal ∧ t.paid = true ∧ t.paid_flag = false then
    match t.amount_USD, t.amount_EGP with
    | some usd, some egp =>
      let bal := withdrawalWallet usd bal
      match Balance.save catalog bal with
      | .error e => .error e
      | .ok bal =>
        match db.total_assets.head? with
        | none => .error .noTotalAsset
        | some lastRow =>
          let ta := TotalAsset.load 0 lastRow
          let ta := { ta with withdrawals := ta.withdrawals + usd }
          match TotalAsset.save db ta with
          | .error e => .error e
          | .ok (db, _) =>
            if t.real_rate = 0 then .error .divisionByZero
            else
              let withdrawal_spread := egp / t.real_rate - usd
              let db :=
                if withdrawal_spread > 0 then
                  { db with company_finance :=
                      db.company_finance ++ [⟨"Withdrawal Spread", "Revenues", |withdrawal_spread|⟩] }
                else if withdrawal_spread < 0 then
                  { db with company_finance :=
                      db.company_finance ++ [⟨"Withdrawal Spread", "Expenses", |withdrawal_spread|⟩] }
                else db
              .ok (db, bal)
    | _, _ => .error .noneAmount
  else .ok (db, bal)

/-- Lines 290-320 of `Transaction.save`: the deposit `if` followed by the
withdrawal `if` (at most one fires, the type being fixed). -/
def Transaction.applyPaid (catalog : List Bundle) (db : DB) (bal : Balance)
    (t : Transaction) : Except Err (DB × Balance) :=
  match depositStep catalog db bal t with
  | .error e => .error e
  | .ok (db, bal) => withdrawalStep catalog db bal t

/-- `Transaction.save` (lines 289-324): apply the paid-transition effects,
then latch `paid_flag` whenever `paid` is set (lines 322-323) and persist
the transaction (the row's own persistence is the returned record; the
settlement engine's `transactions` table is taken as given elsewhere). -/
def Transaction.save (catalog : List Bundle) (db : DB) (bal : Balance)
    (t : Transaction) : Except Err (DB × Balance × Transaction) :=
  match Transaction.applyPaid catalog db bal t with
  | .error e => .error e
  | .ok (db, bal) =>
    let t := if t.paid = true then { t with paid_flag := true } else t
    .ok (db, bal, t)

/-!
## Concrete inputs used by the witnesses and counterexamples
-/

/-- C1 input: one account, `share = 1/4`, `profit_per = 19/20`,
`main_wallet = 100`, `PL = 0`; previous pool total 4000. -/
def c1bal : Balance := ⟨100, 100, 0, 0, 0, 1/4, 19/20⟩

/-- C1 input database: the account above and one prior settlement row. -/
def c1db : DB := ⟨[c1bal], [⟨0, 4000, 0, 0, 0⟩], [], []⟩

/-- C1 input: the new settlement instance reporting a pool total of 4400. -/
def c1ta : TotalAsset := ⟨none, 1, 4400, 0, 0, 0, 0⟩

/-- C2 input: one account whose wallet is 0, so the first-settlement total is 0. -/
def c2db : DB := ⟨[⟨0, 0, 0, 0, 0, 0, 0⟩], [], [], []⟩

/-- C2 input: a first-ever settlement instance (the seed total is discarded). -/
def c2ta : TotalAsset := ⟨none, 0, 123, 0, 0, 0, 0⟩

/-- C2 witness input: two accounts whose wallets sum to 0. -/
def c2wdb : DB := ⟨[⟨5, 5, 0, 0, 0, 0, 0⟩, ⟨-5, -5, 0, 0, 0, 0, 0⟩], [], [], []⟩

/-- C2 witness input: the settlement instance. -/
def c2wta : TotalAsset := ⟨none, 7, 50, 0, 0, 0, 0⟩

/-- C3 witness input: a paid withdrawal whose `paid_flag` is already latched. -/
def c3t : Transaction := ⟨.Withdrawal, some 1000, some 100, 10, 10, true, true⟩

/-- C3 witness input: an empty database. -/
def c3db : DB := ⟨[], [], [], []⟩

/-- C3 witness input: a zero balance row. -/
def c3bal : Balance := ⟨0, 0, 0, 0, 0, 0, 0⟩

/-- C4 witness input: `main_wallet = 50`, `PL = 300`. -/
def c4bal : Balance := ⟨50, 0, 0, 300, 0, 0, 0⟩

/-- C5 input: a single wide fee tier. -/
def c5catalog : List Bundle := [⟨"Standard", 0, 1000000, 5, 0, 0⟩]

/-- C5 input: the withdrawing account, wallet 1000. -/
def c5bal : Balance := ⟨1000, 1000, 0, 0, 0, 0, 0⟩

/-- C5 input: one `TotalAsset` row, `total = 1000`, no withdrawals yet. -/
def c5db : DB := ⟨[], [⟨0, 1000, 0, 0, 0⟩], [], []⟩

/-- C5 input: first paid withdrawal, 100 USD (spread 0). -/
def c5t1 : Transaction := ⟨.Withdrawal, some 1000, some 100, 10, 10, true, false⟩

/-- C5 input: second paid withdrawal, 50 USD (spread 0). -/
def c5t2 : Transaction := ⟨.Withdrawal, some 500, some 50, 10, 10, true, false⟩

/-- C5: state after the first withdrawal is saved. -/
def c5first : Except Err (DB × Balance × Transaction) :=
  Transaction.save c5catalog c5db c5bal c5t1

/-- C5: state after the second withdrawal is saved on top of the first. -/
def c5second : Except Err (DB × Balance × Transaction) :=
  match c5first with
  | .ok (db1, bal1, _) => Transaction.save c5catalog db1 bal1 c5t2
  | .error e => .error e

/-- C6 witness input: two accounts with wallets 1000 and 3000, no
transactions (the spec's first-settlement scenario). -/
def c6db : DB := ⟨[⟨1000, 1000, 0, 0, 0, 0, 0⟩, ⟨3000, 3000, 0, 0, 0, 0, 0⟩], [], [], []⟩

/-- C6 witness input: a first-ever settlement instance with a seed total
that the branch discards. -/
def c6ta : TotalAsset := ⟨none, 5, 777, 0, 0, 0, 0⟩

/-- C8 witness input: the spec scenario's two fee tiers (5% below 1000, 3%
from 1000 up). -/
def c8catalog : List Bundle := [⟨"A", 0, 999, 5, 0, 0⟩, ⟨"B", 1000, 1000000, 3, 0, 0⟩]

/-- C8 witness input: the tier the deposit lands in. -/
def c8bu : Bundle := ⟨"B", 1000, 1000000, 3, 0, 0⟩

/-- C8 witness input: empty database. -/
def c8db : DB := ⟨[], [], [], []⟩

/-- C8 witness input: the depositing account, wallet 500. -/
def c8bal : Balance := ⟨500, 500, 0, 0, 0, 0, 0⟩

/-- C8 witness input: paid deposit of 600 USD / 9420 EGP at delivered rate
15.7, real rate 15.5. -/
def c8t : Transaction := ⟨.Deposit, some 9420, some 600, 157/10, 155/10, true, false⟩

/-- C9 witness input: neither amount given. -/
def c9both : Transaction := ⟨.Deposit, none, none, 15, 15, false, false⟩

/-- C9 witness input: only `amount_USD` given. -/
def c9usd : Transaction := ⟨.Deposit, none, some 100, 15, 15, false, false⟩

/-- C9 witness input: only `amount_EGP` given. -/
def c9egp : Transaction := ⟨.Deposit, some 1000, none, 15, 15, false, false⟩

/-- C9 witness input: a withdrawal of 100 USD against a balance of 50. -/
def c9wd : Transaction := ⟨.Withdrawal, none, some 100, 15, 15, false, false⟩

/-- C10 witness input: one tier covering the wallet. -/
def c10catalog : List Bundle := [⟨"Base", 0, 100, 5, 0, 0⟩]

/-- C10 witness input: `main_wallet = 5`, `total_achievement = -10`
(`share = 3` to watch it stay untouched). -/
def c10bal : Balance := ⟨5, 0, 0, 7, -10, 3, 0⟩

end Forex

namespace Forex

/-!
## Helper lemmas
-/

/-- The withdrawal branch is a no-op when its guard fails. -/
theorem withdrawalStep_skip (catalog : List Bundle) (db : DB) (bal : Balance)
    (t : Transaction)
    (h : ¬(t.transaction_type = TType.Withdrawal ∧ t.paid = true ∧ t.paid_flag = false)) :
    withdrawalStep catalog db bal t = .ok (db, bal) := by
  simp [withdrawalStep, h]

/-- The deposit branch is a no-op when its guard fails. -/
theorem depositStep_skip (catalog : List Bundle) (db : DB) (bal : Balance)
    (t : Transaction)
    (h : ¬(t.transaction_type = TType.Deposit ∧ t.paid = true ∧ t.paid_flag = false)) :
    depositStep catalog db bal t = .ok (db, bal) := by
  simp [depositStep, h]

/-!
## Claims
-/

/-- C4: withdrawal wallet arithmetic.  If `amount_USD > main_wallet` and
`PL > 0`, then `PL` is decremented by the shortfall, `main_wallet` is set to
the post-decrement `PL`, and `PL` is then zeroed; otherwise `main_wallet` is
simply decremented by `amount_USD`. -/
theorem c4_withdrawal_wallet (usd : ℚ) (b : Balance) :
    (usd > b.main_wallet ∧ b.PL > 0 →
      withdrawalWallet usd b =
        { b with main_wallet := b.PL - (usd - b.main_wallet), PL := 0 })
    ∧ (¬(usd > b.main_wallet ∧ b.PL > 0) →
      withdrawalWallet usd b = { b with main_wallet := b.main_wallet - usd }) := by
  constructor
  · intro h
    simp only [withdrawalWallet, if_pos h]
  · intro h
    simp only [withdrawalWallet, if_neg h]

/-- C4 witness: a withdrawal of 200 with `main_wallet = 50`, `PL = 300`
yields `main_wallet = 150`, `PL = 0`. -/
theorem c4_withdrawal_wallet_witness :
    ((200 : ℚ) > c4bal.main_wallet ∧ c4bal.PL > 0)
    ∧ withdrawalWallet 200 c4bal = ⟨150, 0, 0, 0, 0, 0, 0⟩ := by
  refine ⟨by with_unfolding_all decide, ?_⟩
  have h := (c4_withdrawal_wallet 200 c4bal).1 (by with_unfolding_all decide)
  rw [h]
  with_unfolding_all decide

/-- C7: subsequent settlement.  `PLs` is the new total minus the previous
row's total, and every account's `trading_result_last_week` becomes
`share * profit_per * PLs` (from the pre-settlement `share` and
`profit_per`, which the branch never modifies) and is added to both
`total_achievement` and `PL`. -/
theorem c7_subsequent_settlement (db : DB) (lastRow : TotalAssetRow)
    (ta : TotalAsset) :
    (subsequentSettlement db lastRow ta).2.PLs = ta.total - lastRow.total
    ∧ (subsequentSettlement db lastRow ta).1.map (·.trading_result_last_week)
        = db.balances.map (fun b => b.share * b.profit_per * (ta.total - lastRow.total))
    ∧ (subsequentSettlement db lastRow ta).1.map (·.total_achievement)
        = db.balances.map (fun b =>
            b.total_achievement + b.share * b.profit_per * (ta.total - lastRow.total))
    ∧ (subsequentSettlement db lastRow ta).1.map (·.PL)
        = db.balances.map (fun b =>
            b.PL + b.share * b.profit_per * (ta.total - lastRow.total))
    ∧ (subsequentSettlement db lastRow ta).1.map (·.share)
        = db.balances.map (·.share)
    ∧ (subsequentSettlement db lastRow ta).1.map (·.profit_per)
        = db.balances.map (·.profit_per) := by
  refine ⟨rfl, ?_, ?_, ?_, ?_, ?_⟩ <;>
    simp [subsequentSettlement, settleApply, settleTrw, List.map_map, Function.comp]

/-- C3: a transaction whose `paid_flag` is already latched is never
re-processed — saving it mutates nothing (the database, the balance and the
transaction itself are returned unchanged) — and any successful save of a
paid transaction leaves `paid_flag` latched to true. -/
theorem c3_paid_flag_idempotent (catalog : List Bundle) (db : DB) (bal : Balance) :
    (∀ t : Transaction, t.paid_flag = true →
      Transaction.save catalog db bal t = .ok (db, bal, t))
    ∧ (∀ (t : Transaction) (db' : DB) (bal' : Balance) (t' : Transaction),
      Transaction.save catalog db bal t = .ok (db', bal', t') →
      t.paid = true → t'.paid_flag = true) := by
  constructor
  · intro t h
    obtain ⟨ty, egp, usd, dr, rr, p, pf⟩ := t
    simp only at h
    subst h
    simp [Transaction.save, Transaction.applyPaid, depositStep, withdrawalStep]
  · intro t db' bal' t' hsave hp
    unfold Transaction.save at hsave
    cases happ : Transaction.applyPaid catalog db bal t with
    | error e => rw [happ] at hsave; exact absurd hsave (by simp)
    | ok p =>
      obtain ⟨db1, bal1⟩ := p
      rw [happ] at hsave
      simp only [hp, if_pos, Except.ok.injEq, Prod.mk.injEq] at hsave
      obtain ⟨-, -, ht⟩ := hsave
      rw [← ht]

/-- C3 witness: re-saving a latched withdrawal changes nothing. -/
theorem c3_paid_flag_idempotent_witness :
    c3t.paid_flag = true
    ∧ Transaction.save c5catalog c3db c3bal c3t = .ok (c3db, c3bal, c3t) := by
  exact ⟨rfl, (c3_paid_flag_idempotent c5catalog c3db c3bal).1 c3t rfl⟩

/-- C10: the floor rule of `Balance.save`.  When
`main_wallet + total_achievement ≤ 0` the save zeroes `balance`,
`main_wallet` and `PL` but leaves `total_achievement` (and
`trading_result_last_week` and `share`) unchanged, so right after such a
save `balance ≠ main_wallet + total_achievement` whenever
`total_achievement ≠ 0`. -/
theorem c10_balance_floor (catalog : List Bundle) (b : Balance) (bu : Bundle)
    (hbu : Bundle.resolve catalog b.main_wallet = some bu)
    (hle : b.main_wallet + b.total_achievement ≤ 0) :
    Balance.save catalog b =
      .ok { b with balance := 0, main_wallet := 0, PL := 0,
                   profit_per := (100 - bu.bundle_per) / 100 }
    ∧ (b.total_achievement ≠ 0 → ∀ b' : Balance,
        Balance.save catalog b = .ok b' →
        b'.balance ≠ b'.main_wallet + b'.total_achievement) := by
  obtain ⟨mw, blc, trw, pl, ach, sh, pp⟩ := b
  simp only at hbu hle
  have h1 : Balance.save catalog ⟨mw, blc, trw, pl, ach, sh, pp⟩ =
      .ok ⟨0, 0, trw, 0, ach, sh, (100 - bu.bundle_per) / 100⟩ := by
    simp only [Balance.save, hbu, if_pos hle]
  refine ⟨h1, ?_⟩
  intro hach b' hsave
  rw [h1] at hsave
  simp only [Except.ok.injEq] at hsave
  rw [← hsave]
  simpa using fun h => hach h.symm

/-- C10 witness: `main_wallet = 5`, `total_achievement = -10` floors to
zero wallet and PL while keeping `total_achievement = -10` and `share = 3`,
and the post-save invariant `balance = main_wallet + total_achievement`
indeed fails. -/
theorem c10_balance_floor_witness :
    (c10bal.main_wallet + c10bal.total_achievement ≤ 0)
    ∧ Balance.save c10catalog c10bal = .ok ⟨0, 0, 0, 0, -10, 3, 95/100⟩
    ∧ (0 : ℚ) ≠ 0 + (-10) := by
  have h := c10_balance_floor c10catalog c10bal ⟨"Base", 0, 100, 5, 0, 0⟩
    (by with_unfolding_all decide) (by with_unfolding_all decide)
  refine ⟨by with_unfolding_all decide, ?_, by norm_num⟩
  rw [h.1]
  with_unfolding_all decide

/-- C9: `Transaction.clean`.  Both amounts falsy fails with the
missing-amount `ValidationError`; exactly one truthy amount derives the
other via `deliverd_rate` (rounded to 2 decimals); a withdrawal whose USD
amount exceeds the account balance fails with the insufficient-funds
`ValidationError`.  On every failure `clean` returns only an error: no
ledger object is touched (its type shows it reads nothing but the balance
figure and the transaction). -/
theorem c9_clean (bb : ℚ) (t : Transaction) :
    (falsy t.amount_EGP = true → falsy t.amount_USD = true →
      Transaction.clean bb t = .error .missingAmount)
    ∧ (∀ u : ℚ, t.amount_USD = some u → u ≠ 0 → falsy t.amount_EGP = true →
      Transaction.clean bb t =
        (if t.transaction_type = TType.Withdrawal ∧ u > bb then
          .error .insufficientFunds
        else .ok { t with amount_EGP := some (round2 (u * t.deliverd_rate)) }))
    ∧ (∀ e : ℚ, t.amount_EGP = some e → e ≠ 0 → falsy t.amount_USD = true →
      t.deliverd_rate ≠ 0 →
      Transaction.clean bb t =
        (if t.transaction_type = TType.Withdrawal ∧ round2 (e / t.deliverd_rate) > bb then
          .error .insufficientFunds
        else .ok { t with amount_USD := some (round2 (e / t.deliverd_rate)) }))
    ∧ (∀ u e : ℚ, t.amount_USD = some u → u ≠ 0 → t.amount_EGP = some e → e ≠ 0 →
      Transaction.clean bb t =
        (if t.transaction_type = TType.Withdrawal ∧ u > bb then
          .error .insufficientFunds
        else .ok t)) := by
  obtain ⟨ty, egp, usd, dr, rr, p, pf⟩ := t
  refine ⟨?_, ?_, ?_, ?_⟩
  · intro h1 h2
    simp only at h1 h2
    simp [Transaction.clean, h1, h2]
  · intro u hu hu0 hegp
    simp only at hu hegp
    subst hu
    cases egp with
    | none => simp [Transaction.clean, falsy, hu0]
    | some x =>
      have hx0 : x = 0 := by simpa [falsy] using hegp
      subst hx0
      simp [Transaction.clean, falsy, hu0]
  · intro e he he0 husd hdr
    simp only at he husd hdr
    subst he
    cases usd with
    | none => simp [Transaction.clean, falsy, he0, hdr]
    | some x =>
      have hx0 : x = 0 := by simpa [falsy] using husd
      subst hx0
      simp [Transaction.clean, falsy, he0, hdr]
  · intro u e hu hu0 he he0
    simp only at hu he
    subst hu
    subst he
    simp [Transaction.clean, falsy, hu0, he0]

/-- C9 witness: the four validation behaviours at concrete transactions:
no amount given, USD only (EGP derived as `100 * 15 = 1500`), EGP only
(USD derived as `round(1000 / 15, 2) = 66.67`), and an overdrawing
withdrawal of 100 against a balance of 50. -/
theorem c9_clean_witness :
    Transaction.clean 0 c9both = .error .missingAmount
    ∧ Transaction.clean 0 c9usd = .ok { c9usd with amount_EGP := some 1500 }
    ∧ Transaction.clean 0 c9egp = .ok { c9egp with amount_USD := some (6667/100) }
    ∧ Transaction.clean 50 c9wd = .error .insufficientFunds := by
  refine ⟨(c9_clean 0 c9both).1 rfl rfl, ?_, ?_, ?_⟩
  · have h := (c9_clean 0 c9usd).2.1 100 rfl (by norm_num) rfl
    rw [h]
    with_unfolding_all rfl
  · have h := (c9_clean 0 c9egp).2.2.1 1000 rfl (by norm_num) rfl
      (by norm_num [c9egp])
    rw [h]
    with_unfolding_all rfl
  · have h := (c9_clean 50 c9wd).2.1 100 rfl (by norm_num) rfl
    rw [h]
    with_unfolding_all rfl

/-- C8: a paid deposit (with `paid_flag` not yet latched) credits
`main_wallet` with `amount_USD`, and with
`spread = amount_USD - amount_EGP / real_rate` appends a "Deposit Spread"
Revenue record of `|spread|` when `spread > 0`, an Expense record when
`spread < 0`, and nothing when the spread is exactly 0; the balance is then
re-saved (recomputing `balance` and the fee tier) and `paid_flag` latches. -/
theorem c8_deposit_effects (catalog : List Bundle) (db : DB) (bal : Balance)
    (t : Transaction) (usd egp : ℚ) (bu : Bundle)
    (hty : t.transaction_type = TType.Deposit) (hp : t.paid = true)
    (hf : t.paid_flag = false) (hu : t.amount_USD = some usd)
    (he : t.amount_EGP = some egp) (hr : t.real_rate ≠ 0)
    (hbu : Bundle.resolve catalog (bal.main_wallet + usd) = some bu)
    (hfl : ¬(bal.main_wallet + usd + bal.total_achievement ≤ 0)) :
    Transaction.save catalog db bal t =
      .ok ((if usd - egp / t.real_rate > 0 then
              { db with company_finance := db.company_finance ++
                  [⟨"Deposit Spread", "Revenues", |usd - egp / t.real_rate|⟩] }
            else if usd - egp / t.real_rate < 0 then
              { db with company_finance := db.company_finance ++
                  [⟨"Deposit Spread", "Expenses", |usd - egp / t.real_rate|⟩] }
            else db),
           { bal with main_wallet := bal.main_wallet + usd,
                      balance := bal.main_wallet + usd + bal.total_achievement,
                      profit_per := (100 - bu.bundle_per) / 100 },
           { t with paid_flag := true }) := by
  have hws : ∀ (d : DB) (b : Balance), withdrawalStep catalog d b t = .ok (d, b) := by
    intro d b
    refine withdrawalStep_skip catalog d b t ?_
    rw [hty]
    simp
  have hdep : depositStep catalog db bal t =
      .ok ((if usd - egp / t.real_rate > 0 then
              { db with company_finance := db.company_finance ++
                  [⟨"Deposit Spread", "Revenues", |usd - egp / t.real_rate|⟩] }
            else if usd - egp / t.real_rate < 0 then
              { db with company_finance := db.company_finance ++
                  [⟨"Deposit Spread", "Expenses", |usd - egp / t.real_rate|⟩] }
            else db),
           { bal with main_wallet := bal.main_wallet + usd,
                      balance := bal.main_wallet + usd + bal.total_achievement,
                      profit_per := (100 - bu.bundle_per) / 100 }) := by
    simp only [depositStep, hty, hp, hf, hu, he, and_self, if_true, if_neg hr,
      Balance.save, hbu, if_neg hfl]
  simp only [Transaction.save, Transaction.applyPaid, hdep, hws, hp, and_self,
    if_true]

/-- C8 witness: the spec scenario — wallet 500, paid deposit of 600 USD /
9420 EGP at real rate 15.5: the wallet becomes 1100 (tier 3%), the spread
`600 - 9420/15.5 = -240/31` is negative, so an Expense record of `240/31`
(≈ 7.74) is appended under "Deposit Spread". -/
theorem c8_deposit_effects_witness :
    c8t.real_rate ≠ 0
    ∧ Transaction.save c8catalog c8db c8bal c8t =
        .ok (⟨[], [], [], [⟨"Deposit Spread", "Expenses", 240/31⟩]⟩,
             ⟨1100, 1100, 0, 0, 0, 0, 97/100⟩,
             ⟨.Deposit, some 9420, some 600, 157/10, 155/10, true, true⟩) := by
  refine ⟨by norm_num [c8t], ?_⟩
  rw [c8_deposit_effects c8catalog c8db c8bal c8t 600 9420 c8bu rfl rfl rfl rfl rfl
    (by norm_num [c8t]) (by with_unfolding_all rfl) (by norm_num [c8bal])]
  with_unfolding_all rfl


/-- C6: first-ever settlement.  With no prior `TotalAsset` row, the supplied
seed total is discarded: `total` becomes the sum `W` of all account
`main_wallet`s, `deposits` becomes the sum of all paid Deposit transactions
to date rounded to 2 decimals (0 if none), every account's `share` is set to
`balance / total` (total being `W` at that point) when `W` is nonzero, and
afterwards `total` is incremented by `deposits`. -/
theorem c6_first_settlement (db : DB) (ta : TotalAsset) (W : ℚ)
    (hW : aggSum (db.balances.map (·.main_wallet)) = some W) (hW0 : W ≠ 0) :
    firstSettlement db ta =
      .ok (db.balances.map (fun b => { b with share := b.balance / W }),
           { ta with
               total := W + pyDeposits (aggSum (((db.transactions.filter fun tx =>
                 decide (tx.transaction_type = TType.Deposit) && tx.paid)).map (·.amount_USD))),
               deposits := pyDeposits (aggSum (((db.transactions.filter fun tx =>
                 decide (tx.transaction_type = TType.Deposit) && tx.paid)).map (·.amount_USD))) }) := by
  simp only [firstSettlement, hW]
  simp [hW0]

/-- C6 witness: two accounts with wallets 1000 and 3000 and no transactions
give `total = 4000`, `deposits = 0` and shares `1/4` and `3/4`. -/
theorem c6_first_settlement_witness :
    aggSum (c6db.balances.map (·.main_wallet)) = some 4000
    ∧ firstSettlement c6db c6ta =
        .ok ([⟨1000, 1000, 0, 0, 0, 1/4, 0⟩, ⟨3000, 3000, 0, 0, 0, 3/4, 0⟩],
             ⟨none, 5, 4000, 0, 0, 0, 0⟩) := by
  have h := c6_first_settlement c6db c6ta 4000 (by with_unfolding_all rfl) (by norm_num)
  refine ⟨by with_unfolding_all rfl, ?_⟩
  rw [h]
  with_unfolding_all rfl

/-- C2 counterexample: a first-ever settlement over one account whose
wallet is 0 reaches the final share recomputation with `total == 0` and the
save *raises* (the unguarded `UPDATE ... SET share = balance / 0` of line
405 aborts) instead of skipping the recomputation as the claim states. -/
theorem c2_total_zero_raises :
    TotalAsset.save c2db c2ta = .error .divisionByZero := by
  with_unfolding_all rfl

/-- C2 (amended): only the first-settlement share *initialization* is
guarded against `total == 0` (the branch returns the balances untouched),
while the final share recomputation of line 405 is unconditional: any pass
that ends with `total == 0` fails with a division error rather than
skipping the recomputation. -/
theorem c2_final_share_unguarded (db : DB) (ta : TotalAsset)
    (hid : ta.id = none) (hrows : db.total_assets = [])
    (hsum : aggSum (db.balances.map (·.main_wallet)) = some 0)
    (hdep : db.transactions.filter
        (fun tx => decide (tx.transaction_type = TType.Deposit) && tx.paid) = [])
    (hw : ta.old_withdrawals = ta.withdrawals) :
    firstSettlement db ta = .ok (db.balances, { ta with total := 0, deposits := 0 })
    ∧ TotalAsset.save db ta = .error .divisionByZero := by
  have h1 : firstSettlement db ta =
      .ok (db.balances, { ta with total := 0, deposits := 0 }) := by
    simp only [firstSettlement, hsum, hdep]
    simp [pyDeposits, aggSum]
  refine ⟨h1, ?_⟩
  simp only [TotalAsset.save, hid, hrows, List.head?, h1]
  simp [hw]

/-- C2 witness: two accounts whose wallets sum to 0 make the first
settlement end with `total == 0`, and the save fails with the division
error. -/
theorem c2_final_share_unguarded_witness :
    aggSum (c2wdb.balances.map (·.main_wallet)) = some 0
    ∧ TotalAsset.save c2wdb c2wta = .error .divisionByZero := by
  refine ⟨by with_unfolding_all rfl, ?_⟩
  exact (c2_final_share_unguarded c2wdb c2wta rfl rfl
    (by with_unfolding_all rfl) rfl rfl).2

/-- C1 (code bug): after the subsequent settlement of `c1db` (previous
total 4000, new total 4400; one account with `share = 1/4`,
`profit_per = 19/20`, `PL = 0`, `main_wallet = 100`), the account's
`trading_result_last_week` is 95 and its post-settlement
`PL + main_wallet` is 195 — but its stored `balance` is 100, because the
single SQL `UPDATE` of lines 377-380 evaluates `F('PL')` against the row's
*pre-update* `PL`.  The claim (and the source's own comment, "update
balance with new PL values") expects `balance = 195`. -/
theorem c1_settlement_balance_stale_PL :
    (TotalAsset.save c1db c1ta).map
        (fun p => (p.1.balances.map (·.balance),
                   p.1.balances.map (fun b => b.PL + b.main_wallet),
                   p.1.balances.map (·.trading_result_last_week)))
      = .ok ([100], [195], [95])
    ∧ (100 : ℚ) ≠ 195 := by
  exact ⟨by with_unfolding_all rfl, by norm_num⟩

/-- C5 (code bug): two successive paid withdrawals of 100 and 50 against a
`TotalAsset` row with `total = 1000`.  The first save correctly leaves
`total = 900`, but the second subtracts the full cumulative `withdrawals`
counter again — `old_withdrawals` is a class attribute, so the freshly
loaded instance sees `old_withdrawals = 0` and `total -= 150` — leaving
`total = 750` where subtracting each withdrawal exactly once would leave
`1000 - (100 + 50) = 850`. -/
theorem c5_withdrawals_double_subtracted :
    (c5first.map fun p => p.1.total_assets.map (·.total)) = .ok [900]
    ∧ (c5second.map fun p => p.1.total_assets.map (·.total)) = .ok [750]
    ∧ (1000 : ℚ) - (100 + 50) = 850
    ∧ (750 : ℚ) ≠ 850 := by
  refine ⟨by with_unfolding_all rfl, by with_unfolding_all rfl, by norm_num, by norm_num⟩

end Forex
